import Mathlib

/-!
Shallow embedding of the airpollutionbot core (bot.go, store.go, owmapi.go).

Conventions of the embedding:
* Go float64 coordinates are modelled as rationals.
* Go int64 identifiers and Unix timestamps are modelled as Int (seconds).
* The three sqlite tables (user_session, data_point, subscription) become
  three lists of row structures inside a Store value; AUTOINCREMENT of the
  subscription id is an explicit counter.
* Fallible remote calls (the air-pollution provider) are modelled as
  functions returning Option; none models a call that returned an error.
* Database infrastructure errors are not modelled; the two janitor
  statements, whose SQL text the sqlite grammar rejects, are the exception
  and are modelled through the statement strings themselves.
-/

namespace AirPollutionBot

/-- Location (owmapi.go): a latitude/longitude pair. -/
structure Location where
  latitude : ℚ
  longitude : ℚ
deriving DecidableEq

/-- AirQualityIndex (owmapi.go): the AQI severity level, a Go int. -/
abbrev AirQualityIndex := Int

/-- The nested Main field of DataPoint (owmapi.go). -/
structure DataPointMain where
  aqi : AirQualityIndex
deriving DecidableEq

/-- DataPoint (owmapi.go): one AQI measurement with a Unix timestamp Dt and
pollutant component concentrations. -/
structure DataPoint where
  dt : Int
  main : DataPointMain
  components : List (String × ℚ)
deriving DecidableEq

/-- DataPoint.GetAQI (owmapi.go). -/
def DataPoint.GetAQI (dp : DataPoint) : AirQualityIndex := dp.main.aqi

/-- The Go zero value of DataPoint, what new(DataPoint) holds: timestamp 0,
AQI 0, no components. -/
def zeroDataPoint : DataPoint := { dt := 0, main := { aqi := 0 }, components := [] }

/-- ApiPollutionResponse (owmapi.go): the provider answer, a location plus a
list of data points. -/
structure ApiPollutionResponse where
  location : Location
  dp : List DataPoint
deriving DecidableEq

/-- UserSession (store.go): one row of the user_session table. The chatid
column is the primary key. -/
structure UserSession where
  userID : Int
  chatID : Int
  languageCode : String
  longitude : ℚ
  latitude : ℚ
  createdAt : Int
deriving DecidableEq

/-- One row of the data_point table (sqlSchema, store.go): owning chat, the
stored DataPoint (the JSON data column), and created_at.
Store.AddDataPoint sets created_at to time.Unix(dp.Dt, 0). -/
structure DataPointRow where
  chatID : Int
  data : DataPoint
  createdAt : Int
deriving DecidableEq

/-- One row of the subscription table (sqlSchema, store.go). The id column
is INTEGER PRIMARY KEY AUTOINCREMENT; enabled is stored as 0 or 1 and is
modelled as Bool. -/
structure SubscriptionRow where
  id : Int
  chatID : Int
  languageCode : String
  longitude : ℚ
  latitude : ℚ
  aqi : AirQualityIndex
  enabled : Bool
  createdAt : Int
deriving DecidableEq

/-- Store (store.go): the sqlite database contents. nextSubID models the
AUTOINCREMENT counter of the subscription table. -/
structure Store where
  sessions : List UserSession
  dataPoints : List DataPointRow
  subscriptions : List SubscriptionRow
  nextSubID : Int
deriving DecidableEq

/-- Store.UpdateUserSession (store.go): REPLACE INTO user_session keyed on
the chatid primary key — any existing row with the same chatid is removed
and the new row, with created_at set to the current time, is inserted. -/
def Store.UpdateUserSession (st : Store) (n : UserSession) (now : Int) : Store :=
  { st with sessions :=
      st.sessions.filter (fun r => !(r.chatID == n.chatID)) ++ [{ n with createdAt := now }] }

/-- Store.GetSessionByChatID (store.go): SELECT of the user_session row with
the given chatid; none models the sql.ErrNoRows error returned to the
caller when no session exists. -/
def Store.GetSessionByChatID (st : Store) (chatID : Int) : Option UserSession :=
  st.sessions.find? (fun r => r.chatID == chatID)

/-- Store.AddDataPoint (store.go): INSERTs one data_point row per element of
the response list, with created_at = time.Unix(dp.Dt, 0). -/
def Store.AddDataPoint (st : Store) (chatID : Int) (dps : List DataPoint) : Store :=
  { st with dataPoints :=
      st.dataPoints ++ dps.map (fun dp => { chatID := chatID, data := dp, createdAt := dp.dt }) }

/-- The SQL query inside Store.GetLastPD (store.go): SELECT data FROM
data_point WHERE chat_id=? ORDER BY created_at DESC LIMIT 1. Returns the
row with the greatest created_at among the rows of the chat, none when the
chat has no rows; among equal timestamps the later-inserted row wins. -/
def Store.getLastRow (st : Store) (chatID : Int) : Option DataPointRow :=
  (st.dataPoints.filter (fun r => r.chatID == chatID)).foldl
    (fun best r =>
      match best with
      | none => some r
      | some b => if b.createdAt ≤ r.createdAt then some r else some b)
    none

/-- Store.GetLastPD (store.go): unmarshals the data column of the most
recent row. On sql.ErrNoRows the Go code returns the zero DataPoint
together with a nil error, so absence is encoded as the zero value and the
call still succeeds. -/
def Store.GetLastPD (st : Store) (chatID : Int) : DataPoint :=
  match st.getLastRow chatID with
  | none => zeroDataPoint
  | some r => r.data

/-- Store.ListAQISubscriptions (store.go): SELECT ... FROM subscription
WHERE chat_id=? AND enabled=1. -/
def Store.ListAQISubscriptions (st : Store) (chatID : Int) : List SubscriptionRow :=
  st.subscriptions.filter (fun r => r.chatID == chatID && r.enabled)

/-- Store.ListEnabledSubscriptions (store.go): SELECT ... FROM subscription
WHERE enabled=1. -/
def Store.ListEnabledSubscriptions (st : Store) : List SubscriptionRow :=
  st.subscriptions.filter (fun r => r.enabled)

/-- Store.DeleteAQISubscriptions (store.go): UPDATE subscription SET
enabled=0 WHERE chat_id=? — a soft delete of every subscription of the
chat. -/
def Store.DeleteAQISubscriptions (st : Store) (chatID : Int) : Store :=
  { st with subscriptions :=
      st.subscriptions.map (fun r => if r.chatID == chatID then { r with enabled := false } else r) }

/-- Store.UpdateSubscriptionAQI (store.go): UPDATE subscription SET aqi=?
WHERE id=?. -/
def Store.UpdateSubscriptionAQI (st : Store) (subID : Int) (aqi : AirQualityIndex) : Store :=
  { st with subscriptions :=
      st.subscriptions.map (fun r => if r.id == subID then { r with aqi := aqi } else r) }

/-- The dedup threshold 0.0009 used by Store.AddAQISubscription (store.go). -/
def dedupEpsilon : ℚ := 9 / 10000

/-- The per-subscription test of the duplicate-check loop in
Store.AddAQISubscription (store.go): math.Abs(s.Latitude-us.Latitude) less
than 0.0009 OR math.Abs(s.Longitude-us.Longitude) less than 0.0009. -/
def isNearDuplicate (us : UserSession) (s : SubscriptionRow) : Bool :=
  decide (|s.latitude - us.latitude| < dedupEpsilon) ||
    decide (|s.longitude - us.longitude| < dedupEpsilon)

/-- The business errors Store.AddAQISubscription can return: the session
lookup error (sql.ErrNoRows from GetSessionByChatID) and
ErrNotificationExists. -/
inductive SubscribeError
  | noSession
  | duplicate
deriving DecidableEq

/-- Store.AddAQISubscription (store.go): looks up the session (error when
absent), rejects as duplicate when some currently enabled subscription of
the chat is near the session location in either coordinate, else reads the
most recent DataPoint (which never errors, see GetLastPD) and INSERTs a new
enabled subscription row whose aqi is that readings index. The returned
Store reflects the database after the call: unchanged whenever an error is
returned. -/
def Store.AddAQISubscription (st : Store) (chatID : Int) (now : Int) :
    Store × Option SubscribeError :=
  match st.GetSessionByChatID chatID with
  | none => (st, some SubscribeError.noSession)
  | some us =>
    if (st.ListAQISubscriptions chatID).any (isNearDuplicate us) then
      (st, some SubscribeError.duplicate)
    else
      let dp := st.GetLastPD chatID
      ({ st with
          subscriptions := st.subscriptions ++
            [{ id := st.nextSubID, chatID := us.chatID, languageCode := us.languageCode,
               longitude := us.longitude, latitude := us.latitude, aqi := dp.GetAQI,
               enabled := true, createdAt := now }],
          nextSubID := st.nextSubID + 1 },
       none)

/-- The caching decision of Bot.handleLocationMessage (bot.go): a fresh
provider fetch happens iff time.Since(time.Unix(dp.Dt, 0)) > CacheTime
where dp = GetLastPD(chatID); now and ttl in whole seconds
(CacheTime defaults to 10 minutes). -/
def needsRefresh (st : Store) (chatID : Int) (now ttl : Int) : Bool :=
  decide (now - (st.GetLastPD chatID).dt > ttl)

/-- The direction header of a Bot.Cron notification (bot.go). -/
def aqiGetsWorseMsg : String := "😷 AQI gets worse"

/-- The direction header of a Bot.Cron notification (bot.go). -/
def aqiGetsBetterMsg : String := "😌 AQI gets better"

/-- The observable content of one telegram message sent by Bot.Cron
(bot.go): target chat, language used to render, the direction header and
the new index shown. -/
structure NotifyEvent where
  chatID : Int
  languageCode : String
  headMsg : String
  newIndex : AirQualityIndex
deriving DecidableEq

/-- One iteration of the loop body of Bot.Cron (bot.go) over the
accumulator (store, messages sent so far, count i). fetch models
wAPI.GetAirPollution; none models an error, on which the iteration logs and
continues with the accumulator untouched. On success the readings are
appended, the most recent index is re-derived with GetLastPD, and when it
differs from the subscription aqi the row is updated, one message is sent
(header aqiGetsBetterMsg when the new index is lower, aqiGetsWorseMsg
otherwise) and i is incremented. -/
def cronStep (fetch : Location → Option ApiPollutionResponse)
    (acc : Store × List NotifyEvent × Nat) (s : SubscriptionRow) :
    Store × List NotifyEvent × Nat :=
  let (st, msgs, i) := acc
  match fetch { latitude := s.latitude, longitude := s.longitude } with
  | none => (st, msgs, i)
  | some resp =>
    let st1 := st.AddDataPoint s.chatID resp.dp
    let dp := st1.GetLastPD s.chatID
    if dp.GetAQI ≠ s.aqi then
      let st2 := st1.UpdateSubscriptionAQI s.id dp.GetAQI
      (st2,
       msgs ++ [{ chatID := s.chatID, languageCode := s.languageCode,
                  headMsg := if dp.GetAQI < s.aqi then aqiGetsBetterMsg else aqiGetsWorseMsg,
                  newIndex := dp.GetAQI }],
       i + 1)
    else
      (st1, msgs, i)

/-- Bot.Cron (bot.go): one upfront snapshot of the enabled subscriptions,
then the sequential per-subscription loop; returns the final store, the
messages sent and the sent count i. -/
def Cron (fetch : Location → Option ApiPollutionResponse) (st : Store) :
    Store × List NotifyEvent × Nat :=
  st.ListEnabledSubscriptions.foldl (cronStep fetch) (st, [], 0)

/-- The index Bot.Cron compares against the subscription aqi: the most
recent stored index re-derived after appending the fresh readings. -/
def cronNewIndex (st : Store) (s : SubscriptionRow) (resp : ApiPollutionResponse) :
    AirQualityIndex :=
  ((st.AddDataPoint s.chatID resp.dp).GetLastPD s.chatID).GetAQI

/-- The SQL text executed by Store.ClenupAQISubscriptions (store.go). Note
the missing FROM keyword. -/
def clenupAQISubscriptionsSQL : String := "DELETE subscription WHERE enabled=0"

/-- The SQL text executed by Store.ClenupDataPoint (store.go). Note the
missing FROM keyword. -/
def clenupDataPointSQL : String :=
  "DELETE data_point WHERE created_at <= datetime(\x27now\x27, \x27-12 hour\x27)"

/-- Modelled from the sqlite grammar: a DELETE statement must begin with
the two keywords DELETE FROM; a statement without FROM is rejected with a
syntax error and changes no rows. -/
def sqliteAcceptsDelete (stmt : String) : Bool :=
  "DELETE FROM ".toList.isPrefixOf stmt.toList

/-- Store.ClenupAQISubscriptions (store.go): runs
clenupAQISubscriptionsSQL, which intends DELETE FROM subscription WHERE
enabled=0; because the statement lacks FROM, sqlite rejects it and the
function returns the error with the database untouched. -/
def Store.ClenupAQISubscriptions (st : Store) : Except String Store :=
  if sqliteAcceptsDelete clenupAQISubscriptionsSQL then
    Except.ok { st with subscriptions := st.subscriptions.filter (fun r => r.enabled) }
  else
    Except.error "syntax error"

/-- Store.ClenupDataPoint (store.go): runs clenupDataPointSQL, which
intends DELETE FROM data_point WHERE created_at is 12 hours or older;
because the statement lacks FROM, sqlite rejects it and the function
returns the error with the database untouched. -/
def Store.ClenupDataPoint (st : Store) (now : Int) : Except String Store :=
  if sqliteAcceptsDelete clenupDataPointSQL then
    Except.ok { st with dataPoints :=
      st.dataPoints.filter (fun r => !decide (r.createdAt ≤ now - 43200)) }
  else
    Except.error "syntax error"

/-- Bot.CronCleanup (bot.go): calls ClenupAQISubscriptions only; on error
it logs and returns, leaving the store as it was. Store.ClenupDataPoint has
no caller anywhere in the repository, so no reading purge is scheduled. -/
def CronCleanup (st : Store) : Store :=
  match st.ClenupAQISubscriptions with
  | Except.ok st2 => st2
  | Except.error _ => st

/-- Decidable equality of Except results, to evaluate the janitor
operations on concrete stores. -/
instance {ε α : Type} [DecidableEq ε] [DecidableEq α] : DecidableEq (Except ε α) := fun a b =>
  match a, b with
  | Except.error x, Except.error y =>
    if h : x = y then Decidable.isTrue (by rw [h])
    else Decidable.isFalse (fun hc => h (by injection hc))
  | Except.error _, Except.ok _ => Decidable.isFalse (fun hc => Except.noConfusion hc)
  | Except.ok _, Except.error _ => Decidable.isFalse (fun hc => Except.noConfusion hc)
  | Except.ok x, Except.ok y =>
    if h : x = y then Decidable.isTrue (by rw [h])
    else Decidable.isFalse (fun hc => h (by injection hc))

/-- A store with empty tables, as Store.Init creates. -/
def emptyStore : Store :=
  { sessions := [], dataPoints := [], subscriptions := [], nextSubID := 1 }

/-- A store whose only data_point row is timestamped at the epoch. -/
def epochReadingStore : Store :=
  { sessions := [], dataPoints := [{ chatID := 7, data := zeroDataPoint, createdAt := 0 }],
    subscriptions := [], nextSubID := 1 }

/-- The session of the no-reading example: chat 1 at latitude 1,
longitude 2. -/
def sessionOnlySession : UserSession :=
  { userID := 42, chatID := 1, languageCode := "en", longitude := 2,
    latitude := 1, createdAt := 50 }

/-- A store where chat 1 has a session (at latitude 1, longitude 2) but no
stored reading and no subscription. -/
def sessionOnlyStore : Store :=
  { sessions := [sessionOnlySession],
    dataPoints := [], subscriptions := [], nextSubID := 1 }

/-- A store with one enabled and two disabled subscriptions, a reading for
the enabled one. -/
def janitorSubsStore : Store :=
  { sessions := [],
    dataPoints := [{ chatID := 1, data := zeroDataPoint, createdAt := 10 }],
    subscriptions :=
      [{ id := 1, chatID := 1, languageCode := "en", longitude := 0, latitude := 0,
         aqi := 2, enabled := true, createdAt := 1 },
       { id := 2, chatID := 1, languageCode := "en", longitude := 1, latitude := 1,
         aqi := 3, enabled := false, createdAt := 2 },
       { id := 3, chatID := 2, languageCode := "en", longitude := 2, latitude := 2,
         aqi := 4, enabled := false, createdAt := 3 }],
    nextSubID := 4 }

/-- The clock instant used by the janitor reading example. -/
def janitorNow : Int := 100000

/-- A store with three readings aged 1 hour, 11 hours and 13 hours relative
to janitorNow. -/
def janitorReadingsStore : Store :=
  { sessions := [], subscriptions := [],
    dataPoints :=
      [{ chatID := 1, data := zeroDataPoint, createdAt := janitorNow - 3600 },
       { chatID := 1, data := zeroDataPoint, createdAt := janitorNow - 39600 },
       { chatID := 1, data := zeroDataPoint, createdAt := janitorNow - 46800 }],
    nextSubID := 1 }

/-- The session of the proximity example: chat 1 at latitude 1,
longitude 2. -/
def nearLatSession : UserSession :=
  { userID := 9, chatID := 1, languageCode := "en", longitude := 2,
    latitude := 1, createdAt := 10 }

/-- A store where chat 1 has a session at latitude 1, longitude 2 and one
enabled subscription at latitude 1.0005, longitude 5: the latitude
difference 0.0005 is below the 0.0009 threshold while the longitudes are 3
apart. -/
def nearLatStore : Store :=
  { sessions := [nearLatSession],
    dataPoints := [{ chatID := 1, data := { dt := 20, main := { aqi := 2 }, components := [] },
                     createdAt := 20 }],
    subscriptions :=
      [{ id := 1, chatID := 1, languageCode := "en", longitude := 5,
         latitude := 10005 / 10000, aqi := 2, enabled := true, createdAt := 5 }],
    nextSubID := 2 }

/-- A store where chat 1 has a session at latitude 1, longitude 2, a stored
reading, and one enabled subscription at exactly that location. -/
def sameSpotStore : Store :=
  { sessions := [{ userID := 9, chatID := 1, languageCode := "en", longitude := 2,
                   latitude := 1, createdAt := 10 }],
    dataPoints := [{ chatID := 1, data := { dt := 20, main := { aqi := 3 }, components := [] },
                     createdAt := 20 }],
    subscriptions :=
      [{ id := 1, chatID := 1, languageCode := "en", longitude := 2,
         latitude := 1, aqi := 3, enabled := true, createdAt := 5 }],
    nextSubID := 2 }

/-- The subscription row used by the reconciliation example: chat 1 at the
origin with last known AQI 3. -/
def cronExampleSub : SubscriptionRow :=
  { id := 1, chatID := 1, languageCode := "en", longitude := 0, latitude := 0,
    aqi := 3, enabled := true, createdAt := 0 }

/-- The provider response used by the reconciliation example: one reading
with AQI 2 at time 100. -/
def cronExampleResp : ApiPollutionResponse :=
  { location := { latitude := 0, longitude := 0 },
    dp := [{ dt := 100, main := { aqi := 2 }, components := [] }] }

/-- A provider that always answers cronExampleResp. -/
def cronExampleFetch : Location → Option ApiPollutionResponse :=
  fun _ => some cronExampleResp

/-- A store with one enabled subscription, cronExampleSub. -/
def cronExampleStore : Store :=
  { sessions := [], dataPoints := [], subscriptions := [cronExampleSub], nextSubID := 2 }

/-- Three enabled subscriptions at pairwise distinct locations, for the
failure-isolation example. -/
def isoSub1 : SubscriptionRow :=
  { id := 1, chatID := 1, languageCode := "en", longitude := 0, latitude := 0,
    aqi := 3, enabled := true, createdAt := 0 }

/-- The middle subscription, whose provider fetch fails. -/
def isoSub2 : SubscriptionRow :=
  { id := 2, chatID := 2, languageCode := "en", longitude := 10, latitude := 10,
    aqi := 3, enabled := true, createdAt := 0 }

/-- The last subscription of the failure-isolation example. -/
def isoSub3 : SubscriptionRow :=
  { id := 3, chatID := 3, languageCode := "en", longitude := 20, latitude := 20,
    aqi := 3, enabled := true, createdAt := 0 }

/-- A store holding the three failure-isolation subscriptions. -/
def isoStore : Store :=
  { sessions := [], dataPoints := [], subscriptions := [isoSub1, isoSub2, isoSub3],
    nextSubID := 4 }

/-- A provider that fails exactly at the location of isoSub2 and otherwise
answers cronExampleResp. -/
def isoFetch : Location → Option ApiPollutionResponse :=
  fun l => if l = { latitude := isoSub2.latitude, longitude := isoSub2.longitude } then none
           else some cronExampleResp

/-- The session row used by the session-replace example. -/
def replaceExampleSession : UserSession :=
  { userID := 8, chatID := 3, languageCode := "ru", longitude := 30, latitude := 40,
    createdAt := 0 }

end AirPollutionBot

namespace AirPollutionBot

/-- C3 counterexample: the claim says a fresh fetch is required whenever no
reading exists, for all TTL values; but absence is encoded as the zero
DataPoint, so the code compares now - 0 > ttl, which fails once ttl is at
least the clock value: with now = 5 and ttl = 10 the empty store holds no
reading yet needsRefresh is false. -/
theorem needsRefresh_absent_no_refresh :
    emptyStore.getLastRow 1 = none ∧ needsRefresh emptyStore 1 5 10 = false := by
  decide

/-- C3 (amended): the staleness check requests a fresh fetch iff the age of
the most recent reading exceeds ttl when a reading exists, and iff the
clock value itself exceeds ttl when no reading exists (absence being
encoded as a reading at the epoch). -/
theorem needsRefresh_iff (st : Store) (chatID now ttl : Int) :
    needsRefresh st chatID now ttl = true ↔
      (match st.getLastRow chatID with
       | some r => now - r.data.dt > ttl
       | none => now > ttl) := by
  cases h : st.getLastRow chatID with
  | none => simp [needsRefresh, Store.GetLastPD, h, zeroDataPoint]
  | some r => simp [needsRefresh, Store.GetLastPD, h]

/-- C6 counterexample: GetLastPD answers the zero DataPoint, timestamped at
the epoch, with a nil error when no reading exists: on chat 7 the empty
store and a store whose only reading is the zero DataPoint at the epoch
are indistinguishable through GetLastPD. -/
theorem getLastPD_conflates_absence :
    emptyStore.getLastRow 7 = none ∧
    emptyStore.GetLastPD 7 = zeroDataPoint ∧
    emptyStore.GetLastPD 7 = epochReadingStore.GetLastPD 7 := by
  decide

/-- C6 (amended): GetLastPD returns the stored reading when one exists and
otherwise the zero DataPoint (timestamp 0) with success; absence is
signalled only through the zero value, not through an explicit optional. -/
theorem getLastPD_zero_value_encoding (st : Store) (chatID : Int) :
    (∃ r, st.getLastRow chatID = some r ∧ st.GetLastPD chatID = r.data) ∨
    (st.getLastRow chatID = none ∧ st.GetLastPD chatID = zeroDataPoint) := by
  cases h : st.getLastRow chatID with
  | none => exact Or.inr ⟨rfl, by simp [Store.GetLastPD, h]⟩
  | some r => exact Or.inl ⟨r, rfl, by simp [Store.GetLastPD, h]⟩

/-- C7: the purge statement lacks the FROM keyword, so sqlite rejects it;
ClenupAQISubscriptions returns a syntax error, CronCleanup leaves the
store unchanged, and both disabled rows survive. -/
theorem clenupSubscriptions_syntax_error :
    sqliteAcceptsDelete clenupAQISubscriptionsSQL = false ∧
    janitorSubsStore.ClenupAQISubscriptions = Except.error "syntax error" ∧
    CronCleanup janitorSubsStore = janitorSubsStore ∧
    (janitorSubsStore.subscriptions.filter (fun r => !r.enabled)).length = 2 := by
  decide

/-- C8: the reading purge statement lacks the FROM keyword, so
ClenupDataPoint always returns a syntax error; moreover CronCleanup never
touches the data_point table at all (it only calls
ClenupAQISubscriptions), so the readings aged 1, 11 and 13 hours all
survive the janitor run. -/
theorem clenupDataPoint_never_purges :
    sqliteAcceptsDelete clenupDataPointSQL = false ∧
    janitorReadingsStore.ClenupDataPoint janitorNow = Except.error "syntax error" ∧
    (∀ st : Store, (CronCleanup st).dataPoints = st.dataPoints) ∧
    (CronCleanup janitorReadingsStore).dataPoints.length = 3 := by
  refine ⟨by decide, by decide, ?_, by decide⟩
  intro st
  cases h : st.ClenupAQISubscriptions with
  | error e => simp [CronCleanup, h]
  | ok st2 =>
    have h2 : st2.dataPoints = st.dataPoints := by
      unfold Store.ClenupAQISubscriptions at h
      split at h
      · injection h with h3
        rw [← h3]
      · simp at h
    simp [CronCleanup, h, h2]

end AirPollutionBot

namespace AirPollutionBot

/-- The duplicate-check loop of AddAQISubscription fires iff some enabled
subscription of the chat is near the session in either coordinate. -/
lemma any_isNearDuplicate_iff (st : Store) (chatID : Int) (us : UserSession) :
    (st.ListAQISubscriptions chatID).any (isNearDuplicate us) = true ↔
      ∃ s ∈ st.subscriptions, s.chatID = chatID ∧ s.enabled = true ∧
        (|s.latitude - us.latitude| < dedupEpsilon ∨
          |s.longitude - us.longitude| < dedupEpsilon) := by
  simp [Store.ListAQISubscriptions, List.any_eq_true, List.mem_filter, isNearDuplicate,
        Bool.or_eq_true, Bool.and_eq_true, decide_eq_true_eq, beq_iff_eq, and_assoc]

/-- C1: with a stored session, AddAQISubscription is rejected with the
duplicate error iff some currently enabled subscription of the chat has
latitude within 0.0009 of the session latitude OR longitude within 0.0009
of the session longitude (one-coordinate proximity, not 2-D distance);
when rejected the store is unchanged, so no subscription row is created. -/
theorem addAQISubscription_duplicate_iff
    (st : Store) (chatID now : Int) (us : UserSession)
    (h : st.GetSessionByChatID chatID = some us) :
    (((st.AddAQISubscription chatID now).2 = some SubscribeError.duplicate) ↔
      ∃ s ∈ st.subscriptions, s.chatID = chatID ∧ s.enabled = true ∧
        (|s.latitude - us.latitude| < dedupEpsilon ∨
          |s.longitude - us.longitude| < dedupEpsilon)) ∧
    ((st.AddAQISubscription chatID now).2 = some SubscribeError.duplicate →
      (st.AddAQISubscription chatID now).1 = st) := by
  have key := any_isNearDuplicate_iff st chatID us
  by_cases hd : (st.ListAQISubscriptions chatID).any (isNearDuplicate us) = true
  · simp only [Store.AddAQISubscription, h, if_pos hd]
    exact ⟨iff_of_true (by simp) (key.mp hd), by simp⟩
  · simp only [Store.AddAQISubscription, h, if_neg hd]
    refine ⟨iff_of_false (by simp) (fun hx => hd (key.mpr hx)), fun hx => absurd hx (by simp)⟩

/-- C1 witness: the spec example — session at (1.000, 2.000) against an
enabled subscription at (1.0005, 5.000) is rejected as duplicate even
though the longitudes are 3 apart, and the store stays unchanged. -/
theorem addAQISubscription_duplicate_iff_witness :
    (((nearLatStore.AddAQISubscription 1 100).2 = some SubscribeError.duplicate) ↔
      ∃ s ∈ nearLatStore.subscriptions, s.chatID = 1 ∧ s.enabled = true ∧
        (|s.latitude - nearLatSession.latitude| < dedupEpsilon ∨
          |s.longitude - nearLatSession.longitude| < dedupEpsilon)) ∧
    ((nearLatStore.AddAQISubscription 1 100).2 = some SubscribeError.duplicate →
      (nearLatStore.AddAQISubscription 1 100).1 = nearLatStore) :=
  addAQISubscription_duplicate_iff nearLatStore 1 100 nearLatSession (by decide)

/-- C5 counterexample: chat 1 has a session but no stored reading, yet
AddAQISubscription does not fail: it returns no error and inserts a
subscription row whose aqi is 0, the index of the zero DataPoint. -/
theorem addAQISubscription_no_reading_succeeds :
    sessionOnlyStore.dataPoints = [] ∧
    (sessionOnlyStore.AddAQISubscription 1 100).2 = none ∧
    (sessionOnlyStore.AddAQISubscription 1 100).1.subscriptions =
      [{ id := 1, chatID := 1, languageCode := "en", longitude := 2, latitude := 1,
         aqi := 0, enabled := true, createdAt := 100 }] := by
  decide

/-- C5 (amended): with a session, no stored reading and no nearby enabled
subscription, subscribing SUCCEEDS and appends a row whose lastKnownAQI is
the placeholder 0 taken from the zero DataPoint, rather than failing. -/
theorem addAQISubscription_no_reading
    (st : Store) (chatID now : Int) (us : UserSession)
    (hs : st.GetSessionByChatID chatID = some us)
    (hr : st.getLastRow chatID = none)
    (hd : (st.ListAQISubscriptions chatID).any (isNearDuplicate us) = false) :
    (st.AddAQISubscription chatID now).2 = none ∧
    (st.AddAQISubscription chatID now).1.subscriptions =
      st.subscriptions ++
        [{ id := st.nextSubID, chatID := us.chatID, languageCode := us.languageCode,
           longitude := us.longitude, latitude := us.latitude, aqi := 0,
           enabled := true, createdAt := now }] := by
  simp only [Store.AddAQISubscription, hs, if_neg (by simp [hd] :
    ¬(st.ListAQISubscriptions chatID).any (isNearDuplicate us) = true)]
  simp [Store.GetLastPD, hr, zeroDataPoint, DataPoint.GetAQI]

/-- C5 witness: the amended statement evaluated on the concrete
session-only store. -/
theorem addAQISubscription_no_reading_witness :
    (sessionOnlyStore.AddAQISubscription 1 100).2 = none ∧
    (sessionOnlyStore.AddAQISubscription 1 100).1.subscriptions =
      sessionOnlyStore.subscriptions ++
        [{ id := sessionOnlyStore.nextSubID, chatID := sessionOnlySession.chatID,
           languageCode := sessionOnlySession.languageCode,
           longitude := sessionOnlySession.longitude,
           latitude := sessionOnlySession.latitude, aqi := 0,
           enabled := true, createdAt := 100 }] :=
  addAQISubscription_no_reading sessionOnlyStore 1 100 sessionOnlySession
    (by decide) (by decide) (by decide)

/-- After the soft delete of a chat, that chat has no enabled
subscriptions left to list. -/
lemma filter_enabled_map_disable (l : List SubscriptionRow) (c : Int) :
    (l.map (fun r => if r.chatID == c then { r with enabled := false } else r)).filter
      (fun r => r.chatID == c && r.enabled) = [] := by
  induction l with
  | nil => rfl
  | cons a t ih =>
    rw [List.map_cons, List.filter_cons]
    have hp : ¬(((if (a.chatID == c) = true then { a with enabled := false } else a).chatID == c &&
        (if (a.chatID == c) = true then { a with enabled := false } else a).enabled) = true) := by
      by_cases hc : (a.chatID == c) = true <;> simp [hc]
    rw [if_neg hp]
    exact ih

/-- ListAQISubscriptions is empty right after DeleteAQISubscriptions. -/
lemma listAQISubscriptions_after_delete (st : Store) (chatID : Int) :
    (st.DeleteAQISubscriptions chatID).ListAQISubscriptions chatID = [] := by
  unfold Store.DeleteAQISubscriptions Store.ListAQISubscriptions
  exact filter_enabled_map_disable st.subscriptions chatID

/-- C10: because the duplicate check consults only enabled subscriptions,
subscribing right after the soft delete of all subscriptions of the chat
is never rejected as a duplicate. -/
theorem resubscribe_after_unsubscribeAll
    (st : Store) (chatID now : Int) (us : UserSession) (r : DataPointRow)
    (hs : st.GetSessionByChatID chatID = some us)
    (hr : st.getLastRow chatID = some r) :
    ((st.DeleteAQISubscriptions chatID).AddAQISubscription chatID now).2 ≠
      some SubscribeError.duplicate := by
  have hsess : (st.DeleteAQISubscriptions chatID).GetSessionByChatID chatID = some us := hs
  unfold Store.AddAQISubscription
  rw [hsess, listAQISubscriptions_after_delete]
  simp

/-- C10 witness: chat 1 subscribed at its exact session location, then
soft-deleted; resubscribing at the same spot is not rejected. -/
theorem resubscribe_after_unsubscribeAll_witness :
    ((sameSpotStore.DeleteAQISubscriptions 1).AddAQISubscription 1 200).2 ≠
      some SubscribeError.duplicate :=
  resubscribe_after_unsubscribeAll sameSpotStore 1 200
    { userID := 9, chatID := 1, languageCode := "en", longitude := 2, latitude := 1,
      createdAt := 10 }
    { chatID := 1, data := { dt := 20, main := { aqi := 3 }, components := [] },
      createdAt := 20 }
    (by decide) (by decide)

end AirPollutionBot

namespace AirPollutionBot

/-- After removing every row of chat k, filtering for chat k finds
nothing. -/
lemma filter_self_of_removed (l : List UserSession) (k : Int) :
    (l.filter (fun r => !(r.chatID == k))).filter (fun r => r.chatID == k) = [] := by
  rw [List.filter_filter]
  have hfalse : ∀ a ∈ l, ((a.chatID == k) && !(a.chatID == k)) = (fun _ => false) a := by
    intro a _
    by_cases hb : (a.chatID == k) = true <;> simp [hb]
  rw [List.filter_congr hfalse]
  simp

/-- Removing the rows of chat k leaves the rows of any other chat c
untouched. -/
lemma filter_other_of_removed (l : List UserSession) (k c : Int) (hne : ¬c = k) :
    (l.filter (fun r => !(r.chatID == k))).filter (fun r => r.chatID == c) =
      l.filter (fun r => r.chatID == c) := by
  rw [List.filter_filter]
  apply List.filter_congr
  intro a _
  by_cases hb : (a.chatID == c) = true
  · have hk : (a.chatID == k) = false := by
      rw [beq_iff_eq] at hb
      rw [beq_eq_false_iff_ne, hb]
      exact hne
    simp [hb, hk]
  · simp [hb]

/-- find? over the REPLACE result locates the freshly inserted row. -/
lemma find?_replaced_row (l : List UserSession) (k : Int) (x : UserSession)
    (hx : (x.chatID == k) = true) :
    ((l.filter (fun r => !(r.chatID == k))) ++ [x]).find? (fun r => r.chatID == k) = some x := by
  induction l with
  | nil => simp [List.find?_cons, hx]
  | cons a t ih =>
    by_cases ha : (a.chatID == k) = true
    · simpa [List.filter_cons, ha] using ih
    · simp only [List.filter_cons, ha, Bool.not_false, if_pos]
      simpa [List.find?_cons, ha] using ih

/-- C9: UpdateUserSession preserves the at-most-one-session-per-chat
invariant, and the session stored for the updated chat afterwards is
exactly the new session with its timestamp — every attribute comes from
the update, none from the previous row (full replace). -/
theorem updateUserSession_unique_full_replace
    (st : Store) (n : UserSession) (now : Int)
    (h : ∀ c, (st.sessions.filter (fun r => r.chatID == c)).length ≤ 1) :
    (∀ c, (((st.UpdateUserSession n now).sessions.filter (fun r => r.chatID == c)).length ≤ 1)) ∧
    (st.UpdateUserSession n now).GetSessionByChatID n.chatID =
      some { n with createdAt := now } := by
  constructor
  · intro c
    unfold Store.UpdateUserSession
    rw [List.filter_append, List.length_append]
    by_cases hc : c = n.chatID
    · subst hc
      rw [filter_self_of_removed]
      by_cases hb : ((({ n with createdAt := now } : UserSession)).chatID == n.chatID) = true <;>
        simp [List.filter_cons, hb]
    · rw [filter_other_of_removed st.sessions n.chatID c hc]
      have hb : ((({ n with createdAt := now } : UserSession)).chatID == c) = false := by
        rw [beq_eq_false_iff_ne]
        intro hx
        exact hc (by rw [← hx])
      simpa [List.filter_cons, hb] using h c
  · exact find?_replaced_row st.sessions n.chatID { n with createdAt := now } (by simp)

/-- C9 witness: the replace theorem evaluated on the empty store with a
concrete session. -/
theorem updateUserSession_unique_full_replace_witness :
    (∀ c, (((emptyStore.UpdateUserSession replaceExampleSession 77).sessions.filter
        (fun r => r.chatID == c)).length ≤ 1)) ∧
    (emptyStore.UpdateUserSession replaceExampleSession 77).GetSessionByChatID
        replaceExampleSession.chatID = some { replaceExampleSession with createdAt := 77 } :=
  updateUserSession_unique_full_replace emptyStore replaceExampleSession 77
    (fun c => by simp [emptyStore])

end AirPollutionBot

namespace AirPollutionBot

/-- C2: with a successful fetch for a subscription, letting newIdx be the
index re-derived after appending the fresh readings: when newIdx equals the
stored lastKnownAQI the step emits nothing, the count stays, and the
subscription table is untouched; when they differ the step appends exactly
one event directed by the comparison (better when newIdx is lower, worse
when higher), increments the count, and updates the row of the
subscription to newIdx. -/
theorem cron_change_detection
    (fetch : Location → Option ApiPollutionResponse) (st : Store)
    (msgs : List NotifyEvent) (i : Nat) (s : SubscriptionRow)
    (resp : ApiPollutionResponse)
    (h : fetch { latitude := s.latitude, longitude := s.longitude } = some resp) :
    (cronNewIndex st s resp = s.aqi →
      cronStep fetch (st, msgs, i) s = (st.AddDataPoint s.chatID resp.dp, msgs, i) ∧
      (cronStep fetch (st, msgs, i) s).1.subscriptions = st.subscriptions) ∧
    (cronNewIndex st s resp ≠ s.aqi →
      (cronStep fetch (st, msgs, i) s).2.1 =
        msgs ++ [{ chatID := s.chatID, languageCode := s.languageCode,
                   headMsg := if cronNewIndex st s resp < s.aqi then aqiGetsBetterMsg
                              else aqiGetsWorseMsg,
                   newIndex := cronNewIndex st s resp }] ∧
      (cronStep fetch (st, msgs, i) s).2.2 = i + 1 ∧
      ∀ r ∈ (cronStep fetch (st, msgs, i) s).1.subscriptions,
        r.id = s.id → r.aqi = cronNewIndex st s resp) := by
  constructor
  · intro heq
    unfold cronNewIndex at heq
    simp only [cronStep, h]
    rw [if_neg (not_not_intro heq)]
    exact ⟨rfl, rfl⟩
  · intro hne
    unfold cronNewIndex at hne ⊢
    simp only [cronStep, h]
    rw [if_pos hne]
    refine ⟨rfl, rfl, ?_⟩
    intro r hr hid
    simp only [Store.UpdateSubscriptionAQI, List.mem_map] at hr
    rcases hr with ⟨r0, hr0, hmap⟩
    by_cases hid0 : (r0.id == s.id) = true
    · rw [← hmap]
      simp [hid0]
    · rw [← hmap] at hid
      simp only [hid0, if_false] at hid
      exact absurd hid (by simpa using hid0)

/-- C2 witness: previous index 3, fresh reading with index 2: the step
emits one event headed by the improvement message with new index 2,
increments the count, and updates the subscription row. -/
theorem cron_change_detection_witness :
    (cronNewIndex cronExampleStore cronExampleSub cronExampleResp = cronExampleSub.aqi →
      cronStep cronExampleFetch (cronExampleStore, [], 0) cronExampleSub =
        (cronExampleStore.AddDataPoint cronExampleSub.chatID cronExampleResp.dp, [], 0) ∧
      (cronStep cronExampleFetch (cronExampleStore, [], 0) cronExampleSub).1.subscriptions =
        cronExampleStore.subscriptions) ∧
    (cronNewIndex cronExampleStore cronExampleSub cronExampleResp ≠ cronExampleSub.aqi →
      (cronStep cronExampleFetch (cronExampleStore, [], 0) cronExampleSub).2.1 =
        [] ++ [{ chatID := cronExampleSub.chatID,
                 languageCode := cronExampleSub.languageCode,
                 headMsg := if cronNewIndex cronExampleStore cronExampleSub cronExampleResp <
                     cronExampleSub.aqi then aqiGetsBetterMsg else aqiGetsWorseMsg,
                 newIndex := cronNewIndex cronExampleStore cronExampleSub cronExampleResp }] ∧
      (cronStep cronExampleFetch (cronExampleStore, [], 0) cronExampleSub).2.2 = 0 + 1 ∧
      ∀ r ∈ (cronStep cronExampleFetch (cronExampleStore, [], 0) cronExampleSub).1.subscriptions,
        r.id = cronExampleSub.id →
          r.aqi = cronNewIndex cronExampleStore cronExampleSub cronExampleResp) :=
  cron_change_detection cronExampleFetch cronExampleStore [] 0 cronExampleSub
    cronExampleResp rfl

/-- A failed fetch leaves the Cron accumulator untouched: the subscription
is skipped and the loop moves on. -/
lemma cronStep_fetch_none (fetch : Location → Option ApiPollutionResponse)
    (s : SubscriptionRow)
    (hfail : fetch { latitude := s.latitude, longitude := s.longitude } = none)
    (acc : Store × List NotifyEvent × Nat) :
    cronStep fetch acc s = acc := by
  obtain ⟨st, msgs, i⟩ := acc
  simp [cronStep, hfail]

/-- C4: when the provider fetch fails for exactly one subscription of the
snapshot, the whole run equals the run over the remaining subscriptions
from the same accumulator: nothing is aborted, the other subscriptions are
processed normally, and the failed one contributes neither events nor
count. -/
theorem cron_isolates_failure
    (fetch : Location → Option ApiPollutionResponse) (st : Store)
    (pre post : List SubscriptionRow) (bad : SubscriptionRow)
    (hsubs : st.ListEnabledSubscriptions = pre ++ bad :: post)
    (hfail : fetch { latitude := bad.latitude, longitude := bad.longitude } = none) :
    Cron fetch st = post.foldl (cronStep fetch) (pre.foldl (cronStep fetch) (st, [], 0)) := by
  unfold Cron
  rw [hsubs, List.foldl_append, List.foldl_cons,
    cronStep_fetch_none fetch bad hfail]

/-- C4 witness: three enabled subscriptions with the middle fetch failing:
the run equals the run over the first and third only. -/
theorem cron_isolates_failure_witness :
    Cron isoFetch isoStore =
      [isoSub3].foldl (cronStep isoFetch) ([isoSub1].foldl (cronStep isoFetch) (isoStore, [], 0)) :=
  cron_isolates_failure isoFetch isoStore [isoSub1] [isoSub3] isoSub2 (by decide) (by decide)

end AirPollutionBot
